import Mathlib

/-!
Verification of the ES8266 device agent: the CSV→record decoder
(`src/src/processing_functions.cpp`), the JSON telemetry encoder and the
MQTT connection retry loop (`src/src/main.cpp`), and the SAS-token signer
(spec §4.2; its cryptographic pieces live in external libraries).

Machine integers are embedded as `Fin 256` / `Fin 65536` (the `uint8_t` /
`uint16_t` fields of `payload_structure`); C narrowing conversions become
explicit reduction modulo the type width.
-/

set_option maxRecDepth 16384

namespace ES8266

/-- The `payload_structure` record of `src/include/payload.h`: the device's
sensor/actuator snapshot, twenty unsigned fields in declaration order. -/
structure payload_structure where
  sensor_1_type : Fin 256
  sensor_1_temperature : Fin 65536
  sensors_1_humidity : Fin 256
  sensor_1_light : Fin 256
  sensor_1_CO2 : Fin 65536
  sensor_2_type : Fin 256
  sensor_2_temperature : Fin 65536
  sensors_2_humidity : Fin 256
  sensor_2_light : Fin 256
  sensor_2_CO2 : Fin 65536
  fan_1_type : Fin 256
  fan_1_set_percent : Fin 256
  fan_1_speed : Fin 65536
  fan_2_type : Fin 256
  fan_2_set_percent : Fin 256
  fan_2_speed : Fin 65536
  relay_CO2 : Fin 256
  relay_programmable_1 : Fin 256
  relay_programmable_2 : Fin 256
  pwm_light : Fin 256
  deriving DecidableEq

/-- Numeric value of a digit run, as read left to right by C `atoi`. -/
def digitsVal (l : List Char) : Nat :=
  l.foldl (fun acc c => acc * 10 + (c.toNat - 48)) 0

/-- C `atoi` as called by `processData`: skip leading blanks, accept one
optional sign, read the longest digit run, return 0 when no digits. -/
def atoi (s : String) : Int :=
  let cs := s.data.dropWhile (fun c => c = ' ' || c = '\t')
  match cs with
  | '-' :: rest => -(digitsVal (rest.takeWhile Char.isDigit) : Int)
  | '+' :: rest => (digitsVal (rest.takeWhile Char.isDigit) : Int)
  | _ => (digitsVal (cs.takeWhile Char.isDigit) : Int)

/-- Split a character list at commas, the separator `strtok` is given in
`processData`. -/
def splitCommaAux : List Char → List Char → List String
  | [], cur => [⟨cur.reverse⟩]
  | ',' :: rest, cur => ⟨cur.reverse⟩ :: splitCommaAux rest []
  | c :: rest, cur => splitCommaAux rest (c :: cur)

/-- Tokens produced by the `strtok(_, ",")` loop of `processData`: comma
fields, with empty fields skipped (consecutive delimiters count as one for
`strtok`). -/
def tokensOf (s : String) : List String :=
  (splitCommaAux s.data []).filter (fun t => !t.data.isEmpty)

/-- Integer values of the tokens, in order: the `values[i] = atoi(token)`
loop of `processData` (capped at 20 iterations by `MAX_TOKEN_LENGTH`). -/
def tokenVals (s : String) : List Int :=
  ((tokensOf s).take 20).map atoi

/-- Contents of `values[i]` after the parsing loop: the parsed token when one
was read, otherwise the indeterminate initial contents of the local
`int values[20]` array, modelled by `junk`. -/
def valueAt (vals : List Int) (junk : Fin 20 → Int) (i : Fin 20) : Int :=
  if h : (i : Nat) < vals.length then vals.get ⟨i, h⟩ else junk i

/-- C assignment of an `int` to a `uint8_t` field: reduction modulo 2^8. -/
def toU8 (v : Int) : Fin 256 :=
  ⟨(v % 256).toNat, by
    have h0 : 0 ≤ v % 256 := Int.emod_nonneg v (by decide)
    have h1 : v % 256 < 256 := Int.emod_lt_of_pos v (by decide)
    omega⟩

/-- C assignment of an `int` to a `uint16_t` field: reduction modulo 2^16. -/
def toU16 (v : Int) : Fin 65536 :=
  ⟨(v % 65536).toNat, by
    have h0 : 0 ≤ v % 65536 := Int.emod_nonneg v (by decide)
    have h1 : v % 65536 < 65536 := Int.emod_lt_of_pos v (by decide)
    omega⟩

/-- The `processData` function of `src/src/processing_functions.cpp`:
tokenize at commas, `atoi` each token into `values[0..19]`, then assign all
twenty struct fields positionally — unconditionally, whatever the token
count. `junk` is the indeterminate initial contents of the stack array
`int values[20]`; `r` is the record the caller passes by pointer (every one
of its fields is overwritten). -/
def processData (data : String) (junk : Fin 20 → Int) (_r : payload_structure) :
    payload_structure :=
  let v : Fin 20 → Int := valueAt (tokenVals data) junk
  { sensor_1_type := toU8 (v 0)
    sensor_1_temperature := toU16 (v 1)
    sensors_1_humidity := toU8 (v 2)
    sensor_1_light := toU8 (v 3)
    sensor_1_CO2 := toU16 (v 4)
    sensor_2_type := toU8 (v 5)
    sensor_2_temperature := toU16 (v 6)
    sensors_2_humidity := toU8 (v 7)
    sensor_2_light := toU8 (v 8)
    sensor_2_CO2 := toU16 (v 9)
    fan_1_type := toU8 (v 10)
    fan_1_set_percent := toU8 (v 11)
    fan_1_speed := toU16 (v 12)
    fan_2_type := toU8 (v 13)
    fan_2_set_percent := toU8 (v 14)
    fan_2_speed := toU16 (v 15)
    relay_CO2 := toU8 (v 16)
    relay_programmable_1 := toU8 (v 17)
    relay_programmable_2 := toU8 (v 18)
    pwm_light := toU8 (v 19) }

/-- The `read_serial_port` function of `src/src/processing_functions.cpp`:
when a line is available it is handed to `processData`, otherwise the record
is not touched. `input` is `some line` when `Serial.available() > 0`. -/
def read_serial_port (input : Option String) (junk : Fin 20 → Int)
    (r : payload_structure) : payload_structure :=
  match input with
  | none => r
  | some line => processData line junk r

/-- Field values of a record, in the documented positional order of §3/§4.1
(sensor-1 group, sensor-2 group, fan-1 group, fan-2 group, relay-CO2, the
two programmable relays, pwm-light). -/
def fieldVals (p : payload_structure) : List Nat :=
  [p.sensor_1_type.val, p.sensor_1_temperature.val, p.sensors_1_humidity.val,
   p.sensor_1_light.val, p.sensor_1_CO2.val,
   p.sensor_2_type.val, p.sensor_2_temperature.val, p.sensors_2_humidity.val,
   p.sensor_2_light.val, p.sensor_2_CO2.val,
   p.fan_1_type.val, p.fan_1_set_percent.val, p.fan_1_speed.val,
   p.fan_2_type.val, p.fan_2_set_percent.val, p.fan_2_speed.val,
   p.relay_CO2.val, p.relay_programmable_1.val, p.relay_programmable_2.val,
   p.pwm_light.val]

/-- Width (one past the maximum value) of each destination field, in the same
positional order: 256 for `uint8_t` fields, 65536 for `uint16_t` fields. -/
def fieldWidths : List Nat :=
  [256, 65536, 256, 256, 65536,
   256, 65536, 256, 256, 65536,
   256, 256, 65536,
   256, 256, 65536,
   256, 256, 256, 256]

/-- The worked example frame of spec §8. -/
def exFrame : String := "1,250,45,10,400,1,250,45,10,400,1,50,1200,1,50,1200,1,0,0,5"

/-- A fully populated prior record (the decode of `exFrame`), used as the
previously held StateRecord in concrete scenarios. -/
def exampleRecord : payload_structure :=
  ⟨1, 250, 45, 10, 400, 1, 250, 45, 10, 400, 1, 50, 1200, 1, 50, 1200, 1, 0, 0, 5⟩

/-- Decimal digit characters of `n`, most significant first, accumulated onto
`acc`; `fuel ≥ n` guarantees enough iterations. -/
def natCharsAux : Nat → Nat → List Char → List Char
  | 0, _, acc => acc
  | fuel + 1, n, acc =>
    if n = 0 then acc else natCharsAux fuel (n / 10) (Nat.digitChar (n % 10) :: acc)

/-- Decimal rendering of a natural number, as written by `az_span_u32toa`:
no leading zeros, `"0"` for zero. -/
def natStr (n : Nat) : String :=
  if n = 0 then "0" else ⟨natCharsAux n n []⟩

/-- The `az_span_u32toa` conversion used for `msgCount`. -/
def u32toa (n : Nat) : String := natStr n

/-- The `az_span_i32toa` conversion used for every record field (each field
is promoted to a non-negative `int32_t` before the call). -/
def i32toa (v : Int) : String :=
  if v < 0 then "-" ++ natStr (-v).toNat else natStr v.toNat

/-- The `getTelemetryPayload` function of `src/src/main.cpp` (lines 350-425):
the JSON text written into `telemetry_payload` by the chain of `az_span_copy`
and `az_span_i32toa` calls, literal for literal.  `count` is the value of
`telemetry_send_count` (a `uint32_t`) read by the first conversion.  Note the
source wraps the six type/relay values in double quotes and names the
humidity keys `sensors_1_humidity` / `sensors_2_humidity`. -/
def getTelemetryPayload (p : payload_structure) (count : Fin 4294967296) : String :=
  "\x7b \"msgCount\": " ++ u32toa count.val
  ++ ", \"sensor_1_type\": \"" ++ i32toa (p.sensor_1_type.val : Nat)
  ++ "\", \"sensor_1_temperature\": " ++ i32toa (p.sensor_1_temperature.val : Nat)
  ++ ", \"sensors_1_humidity\": " ++ i32toa (p.sensors_1_humidity.val : Nat)
  ++ ", \"sensor_1_light\": " ++ i32toa (p.sensor_1_light.val : Nat)
  ++ ", \"sensor_1_CO2\": " ++ i32toa (p.sensor_1_CO2.val : Nat)
  ++ ", \"sensor_2_type\": \"" ++ i32toa (p.sensor_2_type.val : Nat)
  ++ "\", \"sensor_2_temperature\": " ++ i32toa (p.sensor_2_temperature.val : Nat)
  ++ ", \"sensors_2_humidity\": " ++ i32toa (p.sensors_2_humidity.val : Nat)
  ++ ", \"sensor_2_light\": " ++ i32toa (p.sensor_2_light.val : Nat)
  ++ ", \"sensor_2_CO2\": " ++ i32toa (p.sensor_2_CO2.val : Nat)
  ++ ", \"fan_1_type\": \"" ++ i32toa (p.fan_1_type.val : Nat)
  ++ "\", \"fan_1_set_percent\": " ++ i32toa (p.fan_1_set_percent.val : Nat)
  ++ ", \"fan_1_speed\": " ++ i32toa (p.fan_1_speed.val : Nat)
  ++ ", \"fan_2_type\": \"" ++ i32toa (p.fan_2_type.val : Nat)
  ++ "\", \"fan_2_set_percent\": " ++ i32toa (p.fan_2_set_percent.val : Nat)
  ++ ", \"fan_2_speed\": " ++ i32toa (p.fan_2_speed.val : Nat)
  ++ ", \"relay_CO2\": " ++ i32toa (p.relay_CO2.val : Nat)
  ++ ", \"relay_programmable_1\": \"" ++ i32toa (p.relay_programmable_1.val : Nat)
  ++ "\""
  ++ ", \"relay_programmable_2\": \"" ++ i32toa (p.relay_programmable_2.val : Nat)
  ++ "\""
  ++ ", \"pwm_light\": " ++ i32toa (p.pwm_light.val : Nat)
  ++ " \x7d"

/-- Bytes the encoder writes into the 1024-byte `telemetry_payload` buffer:
the JSON text plus the terminating NUL appended by `az_span_copy_u8`. -/
def telemetryPayloadSize (p : payload_structure) (count : Fin 4294967296) : Nat :=
  (getTelemetryPayload p count).length + 1

/-- Opening fragment of the payload that C3 claims for the worked example:
`msgCount` 0 followed by `"sensor_1_type": 1` with an unquoted value. -/
def claimedGoldenStart : String := "\x7b \"msgCount\": 0, \"sensor_1_type\": 1"

/-- Frame of exactly twenty valid integer tokens whose first token, 256,
exceeds the `uint8_t` width of its destination field `sensor_1_type`. -/
def frame256 : String := "256,0,0,0,0,0,0,0,0,0,0,0,0,0,0,0,0,0,0,0"

/-- Truncation to a 32-bit machine word. -/
def w32 (n : Nat) : Nat := n % 4294967296

/-- Right rotation of a 32-bit word by `k` positions. -/
def rotr32 (k x : Nat) : Nat := w32 ((x >>> k) ||| (x <<< (32 - k)))

/-- SHA-256 choose function (bitwise complement taken within 32 bits). -/
def shaCh (e f g : Nat) : Nat := (e &&& f) ^^^ ((e ^^^ 4294967295) &&& g)

/-- SHA-256 majority function. -/
def shaMaj (a b c : Nat) : Nat := (a &&& b) ^^^ (a &&& c) ^^^ (b &&& c)

/-- SHA-256 big sigma-0. -/
def bigSigma0 (x : Nat) : Nat := rotr32 2 x ^^^ rotr32 13 x ^^^ rotr32 22 x

/-- SHA-256 big sigma-1. -/
def bigSigma1 (x : Nat) : Nat := rotr32 6 x ^^^ rotr32 11 x ^^^ rotr32 25 x

/-- SHA-256 small sigma-0. -/
def smallSigma0 (x : Nat) : Nat := rotr32 7 x ^^^ rotr32 18 x ^^^ (x >>> 3)

/-- SHA-256 small sigma-1. -/
def smallSigma1 (x : Nat) : Nat := rotr32 17 x ^^^ rotr32 19 x ^^^ (x >>> 10)

/-- The 64 SHA-256 round constants. -/
def shaK : List Nat :=
  [1116352408, 1899447441, 3049323471, 3921009573, 961987163, 1508970993, 2453635748, 2870763221,
   3624381080, 310598401, 607225278, 1426881987, 1925078388, 2162078206, 2614888103, 3248222580,
   3835390401, 4022224774, 264347078, 604807628, 770255983, 1249150122, 1555081692, 1996064986,
   2554220882, 2821834349, 2952996808, 3210313671, 3336571891, 3584528711, 113926993, 338241895,
   666307205, 773529912, 1294757372, 1396182291, 1695183700, 1986661051, 2177026350, 2456956037,
   2730485921, 2820302411, 3259730800, 3345764771, 3516065817, 3600352804, 4094571909, 275423344,
   430227734, 506948616, 659060556, 883997877, 958139571, 1322822218, 1537002063, 1747873779,
   1955562222, 2024104815, 2227730452, 2361852424, 2428436474, 2756734187, 3204031479, 3329325298]

/-- The SHA-256 initial hash value. -/
def shaH0 : List Nat :=
  [1779033703, 3144134277, 1013904242, 2773480762, 1359893119, 2600822924, 528734635, 1541459225]

/-- Big-endian packing of bytes into 32-bit words. -/
def bytesToWords : List Nat → List Nat
  | a :: b :: c :: d :: rest => (a * 16777216 + b * 65536 + c * 256 + d) :: bytesToWords rest
  | _ => []

/-- Big-endian bytes of a 32-bit word. -/
def wordBytes (w : Nat) : List Nat :=
  [w / 16777216 % 256, w / 65536 % 256, w / 256 % 256, w % 256]

/-- Message-schedule extension of the 16 block words to 64. -/
def extendW (ws : List Nat) : List Nat :=
  (List.range 48).foldl
    (fun acc _ =>
      let n := acc.length
      acc ++ [w32 (smallSigma1 (acc.getD (n - 2) 0) + acc.getD (n - 7) 0 +
        smallSigma0 (acc.getD (n - 15) 0) + acc.getD (n - 16) 0)])
    ws

/-- One SHA-256 round on the eight-word working state. -/
def shaStep (st : List Nat) (wk : Nat × Nat) : List Nat :=
  match st with
  | [a, b, c, d, e, f, g, h] =>
    let t1 := w32 (h + bigSigma1 e + shaCh e f g + wk.2 + wk.1)
    let t2 := w32 (bigSigma0 a + shaMaj a b c)
    [w32 (t1 + t2), a, b, c, w32 (d + t1), e, f, g]
  | other => other

/-- SHA-256 compression of one 64-byte block into the hash state. -/
def shaCompress (h : List Nat) (block : List Nat) : List Nat :=
  let w := extendW (bytesToWords block)
  let fin := (w.zip shaK).foldl shaStep h
  (h.zip fin).map (fun q => w32 (q.1 + q.2))

/-- Big-endian 8-byte rendering of the bit length. -/
def be64 (n : Nat) : List Nat :=
  [n / 72057594037927936 % 256, n / 281474976710656 % 256, n / 1099511627776 % 256,
   n / 4294967296 % 256, n / 16777216 % 256, n / 65536 % 256, n / 256 % 256, n % 256]

/-- SHA-256 padding: a 0x80 byte, zeros to 56 mod 64, then the bit length. -/
def shaPad (msg : List Nat) : List Nat :=
  msg ++ 128 :: List.replicate ((64 + 56 - (msg.length + 1) % 64) % 64) 0 ++ be64 (8 * msg.length)

/-- Split into 64-byte blocks (`fuel` bounds the recursion by the length). -/
def chunks64Aux : Nat → List Nat → List (List Nat)
  | 0, _ => []
  | _, [] => []
  | fuel + 1, l => l.take 64 :: chunks64Aux fuel (l.drop 64)

/-- All 64-byte blocks of a padded message. -/
def chunks64 (l : List Nat) : List (List Nat) := chunks64Aux l.length l

/-- Modelled from the spec: SHA-256 over a byte sequence. The repository
computes this through BearSSL (`br_sha256_vtable`), which is not under
`src/`; the definition follows the standard compression structure the spec
names (fixed 32-byte digest). -/
def sha256 (msg : List Nat) : List Nat :=
  (((chunks64 (shaPad msg)).foldl shaCompress shaH0).map wordBytes).flatten

/-- Modelled from the spec: HMAC-SHA256 keyed hash, as produced by BearSSL
`br_hmac_*` (not under `src/`): the key is zero-padded to the 64-byte block,
XORed with the inner and outer pads, and hashed twice. -/
def hmacSha256 (key msg : List Nat) : List Nat :=
  let k0 := if key.length ≤ 64 then key ++ List.replicate (64 - key.length) 0
            else sha256 key ++ List.replicate 32 0
  sha256 ((k0.map (fun b => b ^^^ 92)) ++ sha256 ((k0.map (fun b => b ^^^ 54)) ++ msg))

/-- The base64 alphabet. -/
def b64Alphabet : List Char :=
  "ABCDEFGHIJKLMNOPQRSTUVWXYZabcdefghijklmnopqrstuvwxyz0123456789+/".data

/-- Character for a 6-bit value. -/
def b64Char (n : Nat) : Char := b64Alphabet.getD n 'A'

/-- Base64 encoding of a byte list, with `=` padding. -/
def base64encodeChars : List Nat → List Char
  | [] => []
  | [a] => [b64Char (a / 4), b64Char (a % 4 * 16), '=', '=']
  | [a, b] => [b64Char (a / 4), b64Char (a % 4 * 16 + b / 16), b64Char (b % 16 * 4), '=']
  | a :: b :: c :: rest =>
    b64Char (a / 4) :: b64Char (a % 4 * 16 + b / 16) :: b64Char (b % 16 * 4 + c / 64) ::
      b64Char (c % 64) :: base64encodeChars rest

/-- Modelled from the spec: base64 rendering of the HMAC digest, as produced
by the Arduino `base64::encode` library routine (not under `src/`). -/
def base64encode (l : List Nat) : String := ⟨base64encodeChars l⟩

/-- Value of one base64 character. -/
def b64Val (c : Char) : Option Nat :=
  if 'A' ≤ c && c ≤ 'Z' then some (c.toNat - 65)
  else if 'a' ≤ c && c ≤ 'z' then some (c.toNat - 97 + 26)
  else if '0' ≤ c && c ≤ '9' then some (c.toNat - 48 + 52)
  else if c = '+' then some 62
  else if c = '/' then some 63
  else none

/-- Bytes of a run of 6-bit values: groups of four give three bytes, a final
group of three gives two, of two gives one, and a lone trailing value is an
invalid encoding. -/
def b64Group : List Nat → Option (List Nat)
  | [] => some []
  | [_] => none
  | [a, b] => some [a * 4 + b / 16]
  | [a, b, c] => some [a * 4 + b / 16, b % 16 * 16 + c / 4]
  | a :: b :: c :: d :: rest =>
    (b64Group rest).map
      (fun r => (a * 4 + b / 16) :: (b % 16 * 16 + c / 4) :: (c % 4 * 64 + d) :: r)

/-- Modelled from the spec: base64 decoding of the device's symmetric key,
performed in the repository by libb64 `base64_decode_chars` (not under
`src/`); per spec section 4.2 a decode "yields zero bytes or an invalid
encoding" on bad input, modelled as `some []` respectively `none`. -/
def base64decode (s : String) : Option (List Nat) :=
  let core := s.data.takeWhile (fun c => c != '=')
  let pad := s.data.drop core.length
  if (pad.all fun c => c = '=') && pad.length <= 2 then
    match core.mapM b64Val with
    | none => none
    | some vs => b64Group vs
  else none

/-- Hexadecimal digit in upper case. -/
def hexDigitUpper (n : Nat) : Char :=
  if n < 10 then Char.ofNat (48 + n) else Char.ofNat (55 + n)

/-- Percent-encoding of one character: RFC 3986 unreserved characters pass
through, everything else becomes `%XX`. -/
def urlEncodeChar (c : Char) : List Char :=
  if c.isAlphanum || c = '-' || c = '_' || c = '.' || c = '~' then [c]
  else ['%', hexDigitUpper (c.toNat / 16), hexDigitUpper (c.toNat % 16)]

/-- Modelled from the spec: standard URL component escaping of the resource
string and of the base64 signature (reserved characters such as slash, plus
and equals are escaped); the repository delegates this to
`az_iot_hub_client_sas_get_password`, outside `src/`. -/
def urlEncode (s : String) : String :=
  ⟨s.data.foldr (fun c acc => urlEncodeChar c ++ acc) []⟩

/-- ASCII bytes of a string. -/
def strBytes (s : String) : List Nat := s.data.map Char.toNat

/-- DeviceIdentity of spec section 3: hub address, device identifier, and
the symmetric key in its base64 representation. -/
structure DeviceIdentity where
  hub : String
  device : String
  key : String

/-- SessionCredential of spec section 3. -/
structure SessionCredential where
  token : String
  issuedAt : Nat
  expiresAt : Nat
  deriving DecidableEq

/-- Signing errors of spec section 7. -/
inductive SignError
  | KeyDecodeFailed
  | SignatureBufferTooSmall
  deriving DecidableEq

/-- Write of the decoded key into the static 32-byte
`base64_decoded_device_key` buffer: the decode overwrites the first
`decoded.length` bytes and the HMAC reads back exactly that many. -/
def storeKey (decoded scratch : List Nat) : List Nat :=
  ((decoded ++ scratch.drop decoded.length).take decoded.length)

/-- Modelled from the spec: `sign(identity, now, validity)` of section 4.2.
The repository's `generateSasToken` delegates every step to library code
outside `src/` (azure-sdk-for-c, BearSSL, libb64): compute
`expiresAt = now + validity`, build the canonical resource string and the
string-to-sign `resource + "\n" + expiresAt`, base64-decode the key (failing
with `KeyDecodeFailed` on zero bytes or an invalid encoding), HMAC-SHA256
the string-to-sign, and assemble `sr=...&sig=...&se=...` with the resource
and signature percent-encoded. `scratch` is the prior contents of the
static decoded-key buffer that the decode overwrites. -/
def sign (identity : DeviceIdentity) (now validity : Nat) (scratch : List Nat) :
    Except SignError SessionCredential :=
  let expiresAt := now + validity
  let resource := urlEncode (identity.hub ++ "/devices/" ++ identity.device)
  let stringToSign := resource ++ "\n" ++ natStr expiresAt
  match base64decode identity.key with
  | none => .error .KeyDecodeFailed
  | some decoded =>
    if decoded.length = 0 then .error .KeyDecodeFailed
    else
      let rawKey := storeKey decoded scratch
      let mac := hmacSha256 rawKey (strBytes stringToSign)
      .ok { token := "sr=" ++ resource ++ "&sig=" ++ urlEncode (base64encode mac) ++
              "&se=" ++ natStr expiresAt,
            issuedAt := now, expiresAt := expiresAt }

/-- Decidable equality of signing results. -/
instance {ε α : Type} [DecidableEq ε] [DecidableEq α] : DecidableEq (Except ε α)
  | .error x, .error y =>
    if h : x = y then .isTrue (h ▸ rfl) else .isFalse (fun hc => h (by injection hc))
  | .error _, .ok _ => .isFalse (fun hc => by injection hc)
  | .ok _, .error _ => .isFalse (fun hc => by injection hc)
  | .ok x, .ok y =>
    if h : x = y then .isTrue (h ▸ rfl) else .isFalse (fun hc => h (by injection hc))

/-- ConnectionState of spec section 3. -/
inductive ConnectionState
  | Disconnected
  | Authenticating
  | Connected
  | Faulted
  deriving DecidableEq

/-- State carried across iterations of the retry loop in
`connectToAzureIoTHub`: the connection state together with the global
`sas_token` buffer, which `establishConnection` fills once, before the loop
starts. -/
structure MqttSession where
  conn : ConnectionState
  sas_token : SessionCredential
  deriving DecidableEq

/-- One iteration of the `while (!mqtt_client.connected())` loop of
`connectToAzureIoTHub` (`src/src/main.cpp` lines 280-298): the stored
`sas_token` is presented as the MQTT password; on acceptance the session is
connected, on rejection the loop sleeps 5000 ms (`delay(5000)`) and runs
again — nothing in the loop regenerates the token. Returns the new session,
the credential presented, and the backoff in milliseconds. -/
def mqttConnectAttempt (st : MqttSession) (accepted : Bool) :
    MqttSession × SessionCredential × Nat :=
  if accepted then ({ st with conn := .Connected }, st.sas_token, 0)
  else ({ st with conn := .Authenticating }, st.sas_token, 5000)

/-- The retry loop of `connectToAzureIoTHub`, run against a list of
transport verdicts (`true` = CONNACK accepted): it iterates until
acceptance or until the verdict list is exhausted, and logs the credential
presented and the backoff of every attempt, in order. -/
def connectToAzureIoTHub (st : MqttSession) :
    List Bool → MqttSession × List (SessionCredential × Nat)
  | [] => (st, [])
  | accepted :: rest =>
    let a := mqttConnectAttempt st accepted
    if accepted then (a.1, [(a.2.1, a.2.2)])
    else
      let b := connectToAzureIoTHub a.1 rest
      (b.1, (a.2.1, a.2.2) :: b.2)

/-- A number below `10 ^ k` has at most `k` decimal digit characters. -/
theorem natCharsAux_length_le :
    ∀ (fuel n k : Nat) (acc : List Char), n ≤ fuel → n < 10 ^ k →
      (natCharsAux fuel n acc).length ≤ k + acc.length := by
  intro fuel
  induction fuel with
  | zero =>
    intro n k acc hn _
    have hz : n = 0 := Nat.le_zero.mp hn
    subst hz
    simp [natCharsAux]
  | succ fuel ih =>
    intro n k acc hn hk
    by_cases h0 : n = 0
    · subst h0
      simp [natCharsAux]
    · rw [show natCharsAux (fuel + 1) n acc
            = natCharsAux fuel (n / 10) (Nat.digitChar (n % 10) :: acc) from by
          simp [natCharsAux, h0]]
      have hk1 : 1 ≤ k := by
        rcases k with _ | k
        · simp at hk
          omega
        · omega
      have hdiv : n / 10 < 10 ^ (k - 1) := by
        have hpow : 10 ^ (k - 1) * 10 = 10 ^ k := by
          rw [← pow_succ]
          congr 1
          omega
        rw [Nat.div_lt_iff_lt_mul (by norm_num)]
        omega
      have hfuel : n / 10 ≤ fuel := by
        have := Nat.div_lt_self (Nat.pos_of_ne_zero h0) (by norm_num : 1 < 10)
        omega
      have hrec := ih (n / 10) (k - 1) (Nat.digitChar (n % 10) :: acc) hfuel hdiv
      simp only [List.length_cons] at hrec
      omega

/-- Length bound for the decimal rendering of a natural number. -/
theorem natStr_length_le (n k : Nat) (hk : 1 ≤ k) (h : n < 10 ^ k) :
    (natStr n).length ≤ k := by
  unfold natStr
  by_cases h0 : n = 0
  · rw [if_pos h0, show ("0" : String).length = 1 from rfl]
    exact hk
  · rw [if_neg h0]
    have h2 := natCharsAux_length_le n n k [] (Nat.le_refl n) h
    simp only [List.length_nil, Nat.add_zero] at h2
    exact h2

/-- Length bound for `i32toa` on a (promoted, non-negative) value. -/
theorem i32toa_natCast_length_le (n k : Nat) (hk : 1 ≤ k) (h : n < 10 ^ k) :
    (i32toa (n : Int)).length ≤ k := by
  unfold i32toa
  rw [if_neg (not_lt.mpr (Int.natCast_nonneg n)), Int.toNat_natCast]
  exact natStr_length_le n k hk h

/-- A `uint8_t` field prints in at most 3 characters. -/
theorem i32toa_u8_length (x : Fin 256) : (i32toa (x.val : Int)).length ≤ 3 :=
  i32toa_natCast_length_le x.val 3 (by norm_num) (lt_trans x.isLt (by norm_num))

/-- A `uint16_t` field prints in at most 5 characters. -/
theorem i32toa_u16_length (x : Fin 65536) : (i32toa (x.val : Int)).length ≤ 5 :=
  i32toa_natCast_length_le x.val 5 (by norm_num) (lt_trans x.isLt (by norm_num))

/-- The `uint32_t` message counter prints in at most 10 characters. -/
theorem u32toa_u32_length (c : Fin 4294967296) : (u32toa c.val).length ≤ 10 :=
  natStr_length_le c.val 10 (by norm_num) (lt_trans c.isLt (by norm_num))

/-- C1: for every StateRecord and counter value the encoder writes at most
1024 bytes (JSON text plus NUL terminator) into the 1024-byte
`telemetry_payload` buffer — the serialized size never exceeds the
destination capacity, even at the maximum magnitude of every field, so the
encoder satisfies the contract without ever needing the `BufferTooSmall`
branch. -/
theorem telemetryPayloadSize_le (p : payload_structure) (count : Fin 4294967296) :
    telemetryPayloadSize p count ≤ 1024 := by
  have hc := u32toa_u32_length count
  have h01 := i32toa_u8_length p.sensor_1_type
  have h02 := i32toa_u16_length p.sensor_1_temperature
  have h03 := i32toa_u8_length p.sensors_1_humidity
  have h04 := i32toa_u8_length p.sensor_1_light
  have h05 := i32toa_u16_length p.sensor_1_CO2
  have h06 := i32toa_u8_length p.sensor_2_type
  have h07 := i32toa_u16_length p.sensor_2_temperature
  have h08 := i32toa_u8_length p.sensors_2_humidity
  have h09 := i32toa_u8_length p.sensor_2_light
  have h10 := i32toa_u16_length p.sensor_2_CO2
  have h11 := i32toa_u8_length p.fan_1_type
  have h12 := i32toa_u8_length p.fan_1_set_percent
  have h13 := i32toa_u16_length p.fan_1_speed
  have h14 := i32toa_u8_length p.fan_2_type
  have h15 := i32toa_u8_length p.fan_2_set_percent
  have h16 := i32toa_u16_length p.fan_2_speed
  have h17 := i32toa_u8_length p.relay_CO2
  have h18 := i32toa_u8_length p.relay_programmable_1
  have h19 := i32toa_u8_length p.relay_programmable_2
  have h20 := i32toa_u8_length p.pwm_light
  have l01 : ("\x7b \"msgCount\": " : String).length = 14 := rfl
  have l02 : (", \"sensor_1_type\": \"" : String).length = 20 := rfl
  have l03 : ("\", \"sensor_1_temperature\": " : String).length = 27 := rfl
  have l04 : (", \"sensors_1_humidity\": " : String).length = 24 := rfl
  have l05 : (", \"sensor_1_light\": " : String).length = 20 := rfl
  have l06 : (", \"sensor_1_CO2\": " : String).length = 18 := rfl
  have l07 : (", \"sensor_2_type\": \"" : String).length = 20 := rfl
  have l08 : ("\", \"sensor_2_temperature\": " : String).length = 27 := rfl
  have l09 : (", \"sensors_2_humidity\": " : String).length = 24 := rfl
  have l10 : (", \"sensor_2_light\": " : String).length = 20 := rfl
  have l11 : (", \"sensor_2_CO2\": " : String).length = 18 := rfl
  have l12 : (", \"fan_1_type\": \"" : String).length = 17 := rfl
  have l13 : ("\", \"fan_1_set_percent\": " : String).length = 24 := rfl
  have l14 : (", \"fan_1_speed\": " : String).length = 17 := rfl
  have l15 : (", \"fan_2_type\": \"" : String).length = 17 := rfl
  have l16 : ("\", \"fan_2_set_percent\": " : String).length = 24 := rfl
  have l17 : (", \"fan_2_speed\": " : String).length = 17 := rfl
  have l18 : (", \"relay_CO2\": " : String).length = 15 := rfl
  have l19 : (", \"relay_programmable_1\": \"" : String).length = 27 := rfl
  have l20 : ("\"" : String).length = 1 := rfl
  have l21 : (", \"relay_programmable_2\": \"" : String).length = 27 := rfl
  have l22 : (", \"pwm_light\": " : String).length = 15 := rfl
  have l23 : (" \x7d" : String).length = 2 := rfl
  unfold telemetryPayloadSize getTelemetryPayload
  simp only [String.length_append]
  omega

/-- Within the destination range, the `uint8_t` store is exact. -/
theorem toU8_val_eq (v : Int) (h0 : 0 ≤ v) (h1 : v < 256) : ((toU8 v).val : Int) = v := by
  show ((v % 256).toNat : Int) = v
  omega

/-- Within the destination range, the `uint16_t` store is exact. -/
theorem toU16_val_eq (v : Int) (h0 : 0 ≤ v) (h1 : v < 65536) : ((toU16 v).val : Int) = v := by
  show ((v % 65536).toNat : Int) = v
  omega

/-- A `uint8_t` store keeps the value modulo 2^8. -/
theorem toU8_val_mod (v : Int) : ((toU8 v).val : Int) = v % 256 := by
  show ((v % 256).toNat : Int) = v % 256
  omega

/-- A `uint16_t` store keeps the value modulo 2^16. -/
theorem toU16_val_mod (v : Int) : ((toU16 v).val : Int) = v % 65536 := by
  show ((v % 65536).toNat : Int) = v % 65536
  omega

/-- Reduction of a value modulo a width it meets or exceeds changes it. -/
theorem mod_ne_of_le (v w : Int) (hw : 0 < w) (h : w ≤ v) : v % w ≠ v := by
  have h1 := Int.emod_lt_of_pos v hw
  omega

/-- When at least `i + 1` tokens were parsed, slot `i` holds token `i`,
never the indeterminate array contents. -/
theorem valueAt_eq_getD (vals : List Int) (junk : Fin 20 → Int) (i : Fin 20)
    (h : (i : Nat) < vals.length) : valueAt vals junk i = vals.getD i 0 := by
  unfold valueAt
  rw [dif_pos h, List.getD_eq_getElem vals 0 h]
  simp [List.get_eq_getElem]

/-- C9: when no serial input is available (`Serial.available() == 0`),
`read_serial_port` leaves the StateRecord completely unchanged, so a publish
that fires with no decode since the previous one re-encodes — and therefore
re-sends — the previous snapshot's field values. -/
theorem read_serial_port_no_input (junk : Fin 20 → Int) (r : payload_structure)
    (count : Fin 4294967296) :
    read_serial_port none junk r = r ∧
    getTelemetryPayload (read_serial_port none junk r) count =
      getTelemetryPayload r count :=
  ⟨rfl, rfl⟩

/-- C2 (the code refutes the claim): on the one-token frame `"7"`,
`processData` returns normally — its type is total, it can signal no
`TooFewFields` or `NotNumeric` error — and it mutates the previously held
record: the parsed token overwrites `sensor_1_type` and the other nineteen
fields are filled from the indeterminate `int values[20]` stack array
(modelled here by `junk = fun _ => 9`). -/
theorem processData_short_frame_mutates :
    (processData "7" (fun _ => 9) exampleRecord).sensor_1_type = (7 : Fin 256) ∧
    (processData "7" (fun _ => 9) exampleRecord).pwm_light = (9 : Fin 256) ∧
    processData "7" (fun _ => 9) exampleRecord ≠ exampleRecord := by
  decide

/-- C3 counterexample: the payload encoded for the worked example does not
begin with the fragment the claim spells out — the encoder renders the
`sensor_1_type` value as a quoted string (`"sensor_1_type": "1"`), not as
the bare number 1. -/
theorem payload_example_not_claimed_literal :
    (getTelemetryPayload (processData exFrame (fun _ => 0) exampleRecord) 0).data.take
        claimedGoldenStart.data.length ≠ claimedGoldenStart.data := by
  decide

/-- C3 amended: decoding the worked example frame and re-encoding with
counter 0 yields exactly this JSON text — every field value appears at its
key in the fixed order, with the six type/relay values rendered as quoted
strings and the humidity keys spelled `sensors_1_humidity` /
`sensors_2_humidity`. The prior record and the indeterminate array contents
are irrelevant to the result. -/
theorem payload_example_golden (junk : Fin 20 → Int) (r : payload_structure) :
    getTelemetryPayload (processData exFrame junk r) 0 =
      "\x7b \"msgCount\": 0, \"sensor_1_type\": \"1\", \"sensor_1_temperature\": 250, \"sensors_1_humidity\": 45, \"sensor_1_light\": 10, \"sensor_1_CO2\": 400, \"sensor_2_type\": \"1\", \"sensor_2_temperature\": 250, \"sensors_2_humidity\": 45, \"sensor_2_light\": 10, \"sensor_2_CO2\": 400, \"fan_1_type\": \"1\", \"fan_1_set_percent\": 50, \"fan_1_speed\": 1200, \"fan_2_type\": \"1\", \"fan_2_set_percent\": 50, \"fan_2_speed\": 1200, \"relay_CO2\": 1, \"relay_programmable_1\": \"0\", \"relay_programmable_2\": \"0\", \"pwm_light\": 5 \x7d" := by
  have ht : tokenVals exFrame =
      [1, 250, 45, 10, 400, 1, 250, 45, 10, 400, 1, 50, 1200, 1, 50, 1200, 1, 0, 0, 5] := by
    decide
  have h : processData exFrame junk r = exampleRecord := by
    simp only [processData]
    rw [ht]
    rfl
  rw [h]
  decide

/-- C5 counterexample: `frame256` carries exactly twenty valid integer
tokens and its first token parses to 256, yet the decoded `sensor_1_type`
is not 256 (the store narrows it to 0). -/
theorem processData_field_ne_token :
    (tokenVals frame256).length = 20 ∧
    (tokenVals frame256).getD 0 0 = 256 ∧
    ((processData frame256 (fun _ => 0) exampleRecord).sensor_1_type.val : Int) ≠ 256 := by
  decide

/-- C5 amended: a frame of exactly twenty valid integer tokens decodes to a
StateRecord whose fields equal the tokens positionally in the documented
order, provided each token value fits the width of its destination field
(in general the stored field is the token reduced modulo that width). -/
theorem processData_in_range_exact (s : String) (junk : Fin 20 → Int)
    (r : payload_structure) (hlen : (tokenVals s).length = 20)
    (hrange : ∀ i : Fin 20, 0 ≤ (tokenVals s).getD i 0 ∧
      (tokenVals s).getD i 0 < (fieldWidths.getD i 0 : Int)) :
    ∀ i : Fin 20, ((fieldVals (processData s junk r)).getD i 0 : Int) =
      (tokenVals s).getD i 0 := by
  intro i
  fin_cases i
  · show ((toU8 (valueAt (tokenVals s) junk 0)).val : Int) = (tokenVals s).getD 0 0
    rw [valueAt_eq_getD (tokenVals s) junk 0 (by rw [hlen]; decide)]
    exact toU8_val_eq _ (hrange 0).1 (hrange 0).2
  · show ((toU16 (valueAt (tokenVals s) junk 1)).val : Int) = (tokenVals s).getD 1 0
    rw [valueAt_eq_getD (tokenVals s) junk 1 (by rw [hlen]; decide)]
    exact toU16_val_eq _ (hrange 1).1 (hrange 1).2
  · show ((toU8 (valueAt (tokenVals s) junk 2)).val : Int) = (tokenVals s).getD 2 0
    rw [valueAt_eq_getD (tokenVals s) junk 2 (by rw [hlen]; decide)]
    exact toU8_val_eq _ (hrange 2).1 (hrange 2).2
  · show ((toU8 (valueAt (tokenVals s) junk 3)).val : Int) = (tokenVals s).getD 3 0
    rw [valueAt_eq_getD (tokenVals s) junk 3 (by rw [hlen]; decide)]
    exact toU8_val_eq _ (hrange 3).1 (hrange 3).2
  · show ((toU16 (valueAt (tokenVals s) junk 4)).val : Int) = (tokenVals s).getD 4 0
    rw [valueAt_eq_getD (tokenVals s) junk 4 (by rw [hlen]; decide)]
    exact toU16_val_eq _ (hrange 4).1 (hrange 4).2
  · show ((toU8 (valueAt (tokenVals s) junk 5)).val : Int) = (tokenVals s).getD 5 0
    rw [valueAt_eq_getD (tokenVals s) junk 5 (by rw [hlen]; decide)]
    exact toU8_val_eq _ (hrange 5).1 (hrange 5).2
  · show ((toU16 (valueAt (tokenVals s) junk 6)).val : Int) = (tokenVals s).getD 6 0
    rw [valueAt_eq_getD (tokenVals s) junk 6 (by rw [hlen]; decide)]
    exact toU16_val_eq _ (hrange 6).1 (hrange 6).2
  · show ((toU8 (valueAt (tokenVals s) junk 7)).val : Int) = (tokenVals s).getD 7 0
    rw [valueAt_eq_getD (tokenVals s) junk 7 (by rw [hlen]; decide)]
    exact toU8_val_eq _ (hrange 7).1 (hrange 7).2
  · show ((toU8 (valueAt (tokenVals s) junk 8)).val : Int) = (tokenVals s).getD 8 0
    rw [valueAt_eq_getD (tokenVals s) junk 8 (by rw [hlen]; decide)]
    exact toU8_val_eq _ (hrange 8).1 (hrange 8).2
  · show ((toU16 (valueAt (tokenVals s) junk 9)).val : Int) = (tokenVals s).getD 9 0
    rw [valueAt_eq_getD (tokenVals s) junk 9 (by rw [hlen]; decide)]
    exact toU16_val_eq _ (hrange 9).1 (hrange 9).2
  · show ((toU8 (valueAt (tokenVals s) junk 10)).val : Int) = (tokenVals s).getD 10 0
    rw [valueAt_eq_getD (tokenVals s) junk 10 (by rw [hlen]; decide)]
    exact toU8_val_eq _ (hrange 10).1 (hrange 10).2
  · show ((toU8 (valueAt (tokenVals s) junk 11)).val : Int) = (tokenVals s).getD 11 0
    rw [valueAt_eq_getD (tokenVals s) junk 11 (by rw [hlen]; decide)]
    exact toU8_val_eq _ (hrange 11).1 (hrange 11).2
  · show ((toU16 (valueAt (tokenVals s) junk 12)).val : Int) = (tokenVals s).getD 12 0
    rw [valueAt_eq_getD (tokenVals s) junk 12 (by rw [hlen]; decide)]
    exact toU16_val_eq _ (hrange 12).1 (hrange 12).2
  · show ((toU8 (valueAt (tokenVals s) junk 13)).val : Int) = (tokenVals s).getD 13 0
    rw [valueAt_eq_getD (tokenVals s) junk 13 (by rw [hlen]; decide)]
    exact toU8_val_eq _ (hrange 13).1 (hrange 13).2
  · show ((toU8 (valueAt (tokenVals s) junk 14)).val : Int) = (tokenVals s).getD 14 0
    rw [valueAt_eq_getD (tokenVals s) junk 14 (by rw [hlen]; decide)]
    exact toU8_val_eq _ (hrange 14).1 (hrange 14).2
  · show ((toU16 (valueAt (tokenVals s) junk 15)).val : Int) = (tokenVals s).getD 15 0
    rw [valueAt_eq_getD (tokenVals s) junk 15 (by rw [hlen]; decide)]
    exact toU16_val_eq _ (hrange 15).1 (hrange 15).2
  · show ((toU8 (valueAt (tokenVals s) junk 16)).val : Int) = (tokenVals s).getD 16 0
    rw [valueAt_eq_getD (tokenVals s) junk 16 (by rw [hlen]; decide)]
    exact toU8_val_eq _ (hrange 16).1 (hrange 16).2
  · show ((toU8 (valueAt (tokenVals s) junk 17)).val : Int) = (tokenVals s).getD 17 0
    rw [valueAt_eq_getD (tokenVals s) junk 17 (by rw [hlen]; decide)]
    exact toU8_val_eq _ (hrange 17).1 (hrange 17).2
  · show ((toU8 (valueAt (tokenVals s) junk 18)).val : Int) = (tokenVals s).getD 18 0
    rw [valueAt_eq_getD (tokenVals s) junk 18 (by rw [hlen]; decide)]
    exact toU8_val_eq _ (hrange 18).1 (hrange 18).2
  · show ((toU8 (valueAt (tokenVals s) junk 19)).val : Int) = (tokenVals s).getD 19 0
    rw [valueAt_eq_getD (tokenVals s) junk 19 (by rw [hlen]; decide)]
    exact toU8_val_eq _ (hrange 19).1 (hrange 19).2

/-- Witness for `processData_in_range_exact` at the worked example frame. -/
theorem processData_in_range_exact_witness :
    ((tokenVals exFrame).length = 20) ∧
    (∀ i : Fin 20, 0 ≤ (tokenVals exFrame).getD i 0 ∧
      (tokenVals exFrame).getD i 0 < (fieldWidths.getD i 0 : Int)) ∧
    (∀ i : Fin 20,
      ((fieldVals (processData exFrame (fun _ => 0) exampleRecord)).getD i 0 : Int) =
        (tokenVals exFrame).getD i 0) :=
  ⟨by decide, by decide,
    processData_in_range_exact exFrame (fun _ => 0) exampleRecord (by decide) (by decide)⟩

/-- C10: on a twenty-token frame every decoded token is narrowed to the
width of its destination field — `uint8_t` fields store the parsed integer
modulo 2^8 and `uint16_t` fields modulo 2^16 — so whenever a token value
meets or exceeds its field's width, the stored field differs from the
token. -/
theorem processData_narrows_mod_width (s : String) (junk : Fin 20 → Int)
    (r : payload_structure) (hlen : (tokenVals s).length = 20) :
    ∀ i : Fin 20,
      ((fieldVals (processData s junk r)).getD i 0 : Int) =
          (tokenVals s).getD i 0 % (fieldWidths.getD i 0 : Int) ∧
        ((fieldWidths.getD i 0 : Int) ≤ (tokenVals s).getD i 0 →
          ((fieldVals (processData s junk r)).getD i 0 : Int) ≠ (tokenVals s).getD i 0) := by
  intro i
  fin_cases i
  · refine ⟨?_, fun hge => ?_⟩
    · show ((toU8 (valueAt (tokenVals s) junk 0)).val : Int) = (tokenVals s).getD 0 0 % 256
      rw [valueAt_eq_getD (tokenVals s) junk 0 (by rw [hlen]; decide)]
      exact toU8_val_mod _
    · show ((toU8 (valueAt (tokenVals s) junk 0)).val : Int) ≠ (tokenVals s).getD 0 0
      rw [valueAt_eq_getD (tokenVals s) junk 0 (by rw [hlen]; decide), toU8_val_mod]
      exact mod_ne_of_le ((tokenVals s).getD 0 0) 256 (by decide) hge
  · refine ⟨?_, fun hge => ?_⟩
    · show ((toU16 (valueAt (tokenVals s) junk 1)).val : Int) = (tokenVals s).getD 1 0 % 65536
      rw [valueAt_eq_getD (tokenVals s) junk 1 (by rw [hlen]; decide)]
      exact toU16_val_mod _
    · show ((toU16 (valueAt (tokenVals s) junk 1)).val : Int) ≠ (tokenVals s).getD 1 0
      rw [valueAt_eq_getD (tokenVals s) junk 1 (by rw [hlen]; decide), toU16_val_mod]
      exact mod_ne_of_le ((tokenVals s).getD 1 0) 65536 (by decide) hge
  · refine ⟨?_, fun hge => ?_⟩
    · show ((toU8 (valueAt (tokenVals s) junk 2)).val : Int) = (tokenVals s).getD 2 0 % 256
      rw [valueAt_eq_getD (tokenVals s) junk 2 (by rw [hlen]; decide)]
      exact toU8_val_mod _
    · show ((toU8 (valueAt (tokenVals s) junk 2)).val : Int) ≠ (tokenVals s).getD 2 0
      rw [valueAt_eq_getD (tokenVals s) junk 2 (by rw [hlen]; decide), toU8_val_mod]
      exact mod_ne_of_le ((tokenVals s).getD 2 0) 256 (by decide) hge
  · refine ⟨?_, fun hge => ?_⟩
    · show ((toU8 (valueAt (tokenVals s) junk 3)).val : Int) = (tokenVals s).getD 3 0 % 256
      rw [valueAt_eq_getD (tokenVals s) junk 3 (by rw [hlen]; decide)]
      exact toU8_val_mod _
    · show ((toU8 (valueAt (tokenVals s) junk 3)).val : Int) ≠ (tokenVals s).getD 3 0
      rw [valueAt_eq_getD (tokenVals s) junk 3 (by rw [hlen]; decide), toU8_val_mod]
      exact mod_ne_of_le ((tokenVals s).getD 3 0) 256 (by decide) hge
  · refine ⟨?_, fun hge => ?_⟩
    · show ((toU16 (valueAt (tokenVals s) junk 4)).val : Int) = (tokenVals s).getD 4 0 % 65536
      rw [valueAt_eq_getD (tokenVals s) junk 4 (by rw [hlen]; decide)]
      exact toU16_val_mod _
    · show ((toU16 (valueAt (tokenVals s) junk 4)).val : Int) ≠ (tokenVals s).getD 4 0
      rw [valueAt_eq_getD (tokenVals s) junk 4 (by rw [hlen]; decide), toU16_val_mod]
      exact mod_ne_of_le ((tokenVals s).getD 4 0) 65536 (by decide) hge
  · refine ⟨?_, fun hge => ?_⟩
    · show ((toU8 (valueAt (tokenVals s) junk 5)).val : Int) = (tokenVals s).getD 5 0 % 256
      rw [valueAt_eq_getD (tokenVals s) junk 5 (by rw [hlen]; decide)]
      exact toU8_val_mod _
    · show ((toU8 (valueAt (tokenVals s) junk 5)).val : Int) ≠ (tokenVals s).getD 5 0
      rw [valueAt_eq_getD (tokenVals s) junk 5 (by rw [hlen]; decide), toU8_val_mod]
      exact mod_ne_of_le ((tokenVals s).getD 5 0) 256 (by decide) hge
  · refine ⟨?_, fun hge => ?_⟩
    · show ((toU16 (valueAt (tokenVals s) junk 6)).val : Int) = (tokenVals s).getD 6 0 % 65536
      rw [valueAt_eq_getD (tokenVals s) junk 6 (by rw [hlen]; decide)]
      exact toU16_val_mod _
    · show ((toU16 (valueAt (tokenVals s) junk 6)).val : Int) ≠ (tokenVals s).getD 6 0
      rw [valueAt_eq_getD (tokenVals s) junk 6 (by rw [hlen]; decide), toU16_val_mod]
      exact mod_ne_of_le ((tokenVals s).getD 6 0) 65536 (by decide) hge
  · refine ⟨?_, fun hge => ?_⟩
    · show ((toU8 (valueAt (tokenVals s) junk 7)).val : Int) = (tokenVals s).getD 7 0 % 256
      rw [valueAt_eq_getD (tokenVals s) junk 7 (by rw [hlen]; decide)]
      exact toU8_val_mod _
    · show ((toU8 (valueAt (tokenVals s) junk 7)).val : Int) ≠ (tokenVals s).getD 7 0
      rw [valueAt_eq_getD (tokenVals s) junk 7 (by rw [hlen]; decide), toU8_val_mod]
      exact mod_ne_of_le ((tokenVals s).getD 7 0) 256 (by decide) hge
  · refine ⟨?_, fun hge => ?_⟩
    · show ((toU8 (valueAt (tokenVals s) junk 8)).val : Int) = (tokenVals s).getD 8 0 % 256
      rw [valueAt_eq_getD (tokenVals s) junk 8 (by rw [hlen]; decide)]
      exact toU8_val_mod _
    · show ((toU8 (valueAt (tokenVals s) junk 8)).val : Int) ≠ (tokenVals s).getD 8 0
      rw [valueAt_eq_getD (tokenVals s) junk 8 (by rw [hlen]; decide), toU8_val_mod]
      exact mod_ne_of_le ((tokenVals s).getD 8 0) 256 (by decide) hge
  · refine ⟨?_, fun hge => ?_⟩
    · show ((toU16 (valueAt (tokenVals s) junk 9)).val : Int) = (tokenVals s).getD 9 0 % 65536
      rw [valueAt_eq_getD (tokenVals s) junk 9 (by rw [hlen]; decide)]
      exact toU16_val_mod _
    · show ((toU16 (valueAt (tokenVals s) junk 9)).val : Int) ≠ (tokenVals s).getD 9 0
      rw [valueAt_eq_getD (tokenVals s) junk 9 (by rw [hlen]; decide), toU16_val_mod]
      exact mod_ne_of_le ((tokenVals s).getD 9 0) 65536 (by decide) hge
  · refine ⟨?_, fun hge => ?_⟩
    · show ((toU8 (valueAt (tokenVals s) junk 10)).val : Int) = (tokenVals s).getD 10 0 % 256
      rw [valueAt_eq_getD (tokenVals s) junk 10 (by rw [hlen]; decide)]
      exact toU8_val_mod _
    · show ((toU8 (valueAt (tokenVals s) junk 10)).val : Int) ≠ (tokenVals s).getD 10 0
      rw [valueAt_eq_getD (tokenVals s) junk 10 (by rw [hlen]; decide), toU8_val_mod]
      exact mod_ne_of_le ((tokenVals s).getD 10 0) 256 (by decide) hge
  · refine ⟨?_, fun hge => ?_⟩
    · show ((toU8 (valueAt (tokenVals s) junk 11)).val : Int) = (tokenVals s).getD 11 0 % 256
      rw [valueAt_eq_getD (tokenVals s) junk 11 (by rw [hlen]; decide)]
      exact toU8_val_mod _
    · show ((toU8 (valueAt (tokenVals s) junk 11)).val : Int) ≠ (tokenVals s).getD 11 0
      rw [valueAt_eq_getD (tokenVals s) junk 11 (by rw [hlen]; decide), toU8_val_mod]
      exact mod_ne_of_le ((tokenVals s).getD 11 0) 256 (by decide) hge
  · refine ⟨?_, fun hge => ?_⟩
    · show ((toU16 (valueAt (tokenVals s) junk 12)).val : Int) = (tokenVals s).getD 12 0 % 65536
      rw [valueAt_eq_getD (tokenVals s) junk 12 (by rw [hlen]; decide)]
      exact toU16_val_mod _
    · show ((toU16 (valueAt (tokenVals s) junk 12)).val : Int) ≠ (tokenVals s).getD 12 0
      rw [valueAt_eq_getD (tokenVals s) junk 12 (by rw [hlen]; decide), toU16_val_mod]
      exact mod_ne_of_le ((tokenVals s).getD 12 0) 65536 (by decide) hge
  · refine ⟨?_, fun hge => ?_⟩
    · show ((toU8 (valueAt (tokenVals s) junk 13)).val : Int) = (tokenVals s).getD 13 0 % 256
      rw [valueAt_eq_getD (tokenVals s) junk 13 (by rw [hlen]; decide)]
      exact toU8_val_mod _
    · show ((toU8 (valueAt (tokenVals s) junk 13)).val : Int) ≠ (tokenVals s).getD 13 0
      rw [valueAt_eq_getD (tokenVals s) junk 13 (by rw [hlen]; decide), toU8_val_mod]
      exact mod_ne_of_le ((tokenVals s).getD 13 0) 256 (by decide) hge
  · refine ⟨?_, fun hge => ?_⟩
    · show ((toU8 (valueAt (tokenVals s) junk 14)).val : Int) = (tokenVals s).getD 14 0 % 256
      rw [valueAt_eq_getD (tokenVals s) junk 14 (by rw [hlen]; decide)]
      exact toU8_val_mod _
    · show ((toU8 (valueAt (tokenVals s) junk 14)).val : Int) ≠ (tokenVals s).getD 14 0
      rw [valueAt_eq_getD (tokenVals s) junk 14 (by rw [hlen]; decide), toU8_val_mod]
      exact mod_ne_of_le ((tokenVals s).getD 14 0) 256 (by decide) hge
  · refine ⟨?_, fun hge => ?_⟩
    · show ((toU16 (valueAt (tokenVals s) junk 15)).val : Int) = (tokenVals s).getD 15 0 % 65536
      rw [valueAt_eq_getD (tokenVals s) junk 15 (by rw [hlen]; decide)]
      exact toU16_val_mod _
    · show ((toU16 (valueAt (tokenVals s) junk 15)).val : Int) ≠ (tokenVals s).getD 15 0
      rw [valueAt_eq_getD (tokenVals s) junk 15 (by rw [hlen]; decide), toU16_val_mod]
      exact mod_ne_of_le ((tokenVals s).getD 15 0) 65536 (by decide) hge
  · refine ⟨?_, fun hge => ?_⟩
    · show ((toU8 (valueAt (tokenVals s) junk 16)).val : Int) = (tokenVals s).getD 16 0 % 256
      rw [valueAt_eq_getD (tokenVals s) junk 16 (by rw [hlen]; decide)]
      exact toU8_val_mod _
    · show ((toU8 (valueAt (tokenVals s) junk 16)).val : Int) ≠ (tokenVals s).getD 16 0
      rw [valueAt_eq_getD (tokenVals s) junk 16 (by rw [hlen]; decide), toU8_val_mod]
      exact mod_ne_of_le ((tokenVals s).getD 16 0) 256 (by decide) hge
  · refine ⟨?_, fun hge => ?_⟩
    · show ((toU8 (valueAt (tokenVals s) junk 17)).val : Int) = (tokenVals s).getD 17 0 % 256
      rw [valueAt_eq_getD (tokenVals s) junk 17 (by rw [hlen]; decide)]
      exact toU8_val_mod _
    · show ((toU8 (valueAt (tokenVals s) junk 17)).val : Int) ≠ (tokenVals s).getD 17 0
      rw [valueAt_eq_getD (tokenVals s) junk 17 (by rw [hlen]; decide), toU8_val_mod]
      exact mod_ne_of_le ((tokenVals s).getD 17 0) 256 (by decide) hge
  · refine ⟨?_, fun hge => ?_⟩
    · show ((toU8 (valueAt (tokenVals s) junk 18)).val : Int) = (tokenVals s).getD 18 0 % 256
      rw [valueAt_eq_getD (tokenVals s) junk 18 (by rw [hlen]; decide)]
      exact toU8_val_mod _
    · show ((toU8 (valueAt (tokenVals s) junk 18)).val : Int) ≠ (tokenVals s).getD 18 0
      rw [valueAt_eq_getD (tokenVals s) junk 18 (by rw [hlen]; decide), toU8_val_mod]
      exact mod_ne_of_le ((tokenVals s).getD 18 0) 256 (by decide) hge
  · refine ⟨?_, fun hge => ?_⟩
    · show ((toU8 (valueAt (tokenVals s) junk 19)).val : Int) = (tokenVals s).getD 19 0 % 256
      rw [valueAt_eq_getD (tokenVals s) junk 19 (by rw [hlen]; decide)]
      exact toU8_val_mod _
    · show ((toU8 (valueAt (tokenVals s) junk 19)).val : Int) ≠ (tokenVals s).getD 19 0
      rw [valueAt_eq_getD (tokenVals s) junk 19 (by rw [hlen]; decide), toU8_val_mod]
      exact mod_ne_of_le ((tokenVals s).getD 19 0) 256 (by decide) hge

/-- Witness for `processData_narrows_mod_width` at `frame256`. -/
theorem processData_narrows_mod_width_witness :
    ((tokenVals frame256).length = 20) ∧
    (∀ i : Fin 20,
      ((fieldVals (processData frame256 (fun _ => 0) exampleRecord)).getD i 0 : Int) =
          (tokenVals frame256).getD i 0 % (fieldWidths.getD i 0 : Int) ∧
        ((fieldWidths.getD i 0 : Int) ≤ (tokenVals frame256).getD i 0 →
          ((fieldVals (processData frame256 (fun _ => 0) exampleRecord)).getD i 0 : Int) ≠
            (tokenVals frame256).getD i 0)) :=
  ⟨by decide,
    processData_narrows_mod_width frame256 (fun _ => 0) exampleRecord (by decide)⟩

/-- The HMAC reads back exactly the decoded key bytes, whatever the prior
contents of the scratch buffer were. -/
theorem storeKey_eq (decoded scratch : List Nat) : storeKey decoded scratch = decoded := by
  unfold storeKey
  exact List.take_left decoded _

/-- C6: for the identity `{hub: "h.example", device: "dev1", key:
base64("k") = "aw=="}` with `now = 1000` and `validity = 3600`, `sign`
computes `expiresAt = now + validity = 4600` and returns exactly the token
`sr=h.example%2Fdevices%2Fdev1&sig=<base64, url-escaped HMAC-SHA256 of
"h.example%2Fdevices%2Fdev1\n4600" under key "k">&se=4600` — the literal
below was cross-checked against an independent HMAC-SHA256
implementation. -/
theorem sign_golden_example :
    sign ⟨"h.example", "dev1", "aw=="⟩ 1000 3600 (List.replicate 32 0) =
      .ok ⟨"sr=h.example%2Fdevices%2Fdev1&sig=5UnnceCKNfR4Mro7U%2Fae4giuJ6lXooGMZsbkZI24mj4%3D&se=4600",
        1000, 4600⟩ := by
  decide

/-- C7: signing is deterministic — the credential depends only on
`(identity, now, validity)`; in particular it is independent of the prior
contents of the static decoded-key scratch buffer, so any two calls on the
same triple return byte-identical tokens. -/
theorem sign_deterministic (identity : DeviceIdentity) (now validity : Nat)
    (s₁ s₂ : List Nat) :
    sign identity now validity s₁ = sign identity now validity s₂ := by
  unfold sign
  cases base64decode identity.key with
  | none => rfl
  | some decoded => simp [storeKey_eq]

/-- C8: when the device key's base64 decoding yields zero bytes or is an
invalid encoding, `sign` fails with `SignError.KeyDecodeFailed` and produces
no credential. -/
theorem sign_key_decode_failed (identity : DeviceIdentity) (now validity : Nat)
    (scratch : List Nat)
    (h : base64decode identity.key = none ∨ base64decode identity.key = some []) :
    sign identity now validity scratch = .error .KeyDecodeFailed := by
  unfold sign
  rcases h with h | h
  · rw [h]
  · rw [h]
    rfl

/-- Witness for `sign_key_decode_failed`: the empty key decodes to zero
bytes. -/
theorem sign_key_decode_failed_witness :
    (base64decode "" = none ∨ base64decode "" = some []) ∧
    sign ⟨"h.example", "dev1", ""⟩ 1000 3600 [] = .error .KeyDecodeFailed :=
  ⟨Or.inr (by decide),
    sign_key_decode_failed ⟨"h.example", "dev1", ""⟩ 1000 3600 [] (Or.inr (by decide))⟩

/-- C4 (the code refutes the fresh-credential part of the claim): running
the connect loop from `Authenticating` against two consecutive transport
rejections, both attempts present the very same stored credential — equal
tokens and equal `issuedAt` 1000, not a later one — while each rejection
incurs the fixed 5000 ms backoff and the session remains in
`Authenticating`, never `Faulted`. -/
theorem connectToAzureIoTHub_reuses_credential :
    (connectToAzureIoTHub
        ⟨.Authenticating, ⟨"sr=h.example%2Fdevices%2Fdev1&sig=s&se=4600", 1000, 4600⟩⟩
        [false, false]).2
      = [(⟨"sr=h.example%2Fdevices%2Fdev1&sig=s&se=4600", 1000, 4600⟩, 5000),
         (⟨"sr=h.example%2Fdevices%2Fdev1&sig=s&se=4600", 1000, 4600⟩, 5000)] ∧
    (connectToAzureIoTHub
        ⟨.Authenticating, ⟨"sr=h.example%2Fdevices%2Fdev1&sig=s&se=4600", 1000, 4600⟩⟩
        [false, false]).1.conn = .Authenticating := by
  decide

end ES8266
